import Mathlib

/-!
Shallow embedding of the TrendPeek-AI detection core.

The repository contains two near-duplicate realizations of the pipeline:
`step4_complete_system.py` (the complete system; correct regular
expressions) and `youtube_shorts_filter.py` (whose raw-string regexes
contain doubled backslashes, so `\\d` / `\\s` denote a literal backslash
followed by `d` / `s`).  Both are embedded below, `step4` under the
namespace `Step4` and `youtube_shorts_filter` under the namespace `YS`.

Regular-expression search is embedded by a small positional matcher: a
pattern is an abstract syntax tree (`Regex`), and `Regex.pmatch r s`
returns the list of suffixes that remain after `r` has consumed a prefix
of `s`.  All Kleene iterations occurring in the repository's patterns
range over single-character classes, so the star constructor is
`starP : (Char → Bool) → Regex` and the matcher is structurally
recursive.  Zero-width end anchors (`$`, which occurs only inside the
broken pattern `(\\$|€|£)\\d+(\\.\\d{2})?` of `youtube_shorts_filter.py`)
are the constructor `dollar`, succeeding exactly when the remaining
suffix of the whole subject string is empty or a single newline — the
CPython semantics of `$` without MULTILINE.
-/

/-- Python's `\s` class (ASCII part): space, tab, newline, carriage
return, vertical tab, form feed. -/
def pySpace (c : Char) : Bool :=
  c == ' ' || c == '\t' || c == '\n' || c == '\r' || c == '\x0b' || c == '\x0c'

/-- Python's `\d` class restricted to ASCII digits (the only digits that
occur in the data handled here). -/
def pyDigit (c : Char) : Bool :=
  c.isDigit

/-- Python's `.` metacharacter: any character except a newline. -/
def pyDot (c : Char) : Bool :=
  c != '\n'

/-- Python's `str.lower` on the ASCII data handled here. -/
def pyLower (s : String) : String :=
  ⟨s.data.map Char.toLower⟩

/-- Abstract syntax of the regular-expression fragment used by the
repository's pattern libraries. -/
inductive Regex where
  | eps : Regex
  | pred (p : Char → Bool) : Regex
  | dollar : Regex
  | seq (r₁ r₂ : Regex) : Regex
  | alt (r₁ r₂ : Regex) : Regex
  | starP (p : Char → Bool) : Regex

/-- A single literal character. -/
def Regex.chr (c : Char) : Regex :=
  .pred (· == c)

/-- A literal string. -/
def Regex.lit (s : String) : Regex :=
  s.data.foldr (fun c r => .seq (.chr c) r) .eps

/-- Concatenation of a list of patterns. -/
def Regex.rcat (l : List Regex) : Regex :=
  l.foldr .seq .eps

/-- `r?` — zero or one occurrence. -/
def Regex.opt (r : Regex) : Regex :=
  .alt r .eps

/-- `p+` over a character class. -/
def Regex.plusP (p : Char → Bool) : Regex :=
  .seq (.pred p) (.starP p)

/-- `c*` over a single literal character. -/
def Regex.starC (c : Char) : Regex :=
  .starP (· == c)

/-- `c+` over a single literal character. -/
def Regex.plusC (c : Char) : Regex :=
  .plusP (· == c)

/-- All suffixes reachable from `s` by consuming a (possibly empty) run
of characters satisfying `p` — the remainders of `p*`. -/
def starRem (p : Char → Bool) : List Char → List (List Char)
  | [] => [[]]
  | c :: cs => (c :: cs) :: (if p c then starRem p cs else [])

/-- `pmatch r s` is the list of remainders: suffixes `t` of `s` such
that `r` matches the prefix of `s` ending where `t` begins. -/
def Regex.pmatch : Regex → List Char → List (List Char)
  | .eps, s => [s]
  | .pred _, [] => []
  | .pred p, c :: cs => if p c then [cs] else []
  | .dollar, s => if s = [] || s = ['\n'] then [s] else []
  | .seq r₁ r₂, s => (pmatch r₁ s).flatMap (pmatch r₂)
  | .alt r₁ r₂, s => pmatch r₁ s ++ pmatch r₂ s
  | .starP p, s => starRem p s

/-- Does `r` match starting at some position of `s`?  (`re.search`.) -/
def searchFrom (r : Regex) : List Char → Bool
  | [] => !(r.pmatch []).isEmpty
  | c :: cs => !(r.pmatch (c :: cs)).isEmpty || searchFrom r cs

/-- `re.search(r, s)` viewed as a Boolean.  Case-insensitive matching is
realized by handing the matcher the case-folded subject string; every
pattern in the repository is written in lower case. -/
def reSearch (r : Regex) (s : String) : Bool :=
  searchFrom r s.data

/-- Numeric value of a list of decimal digits (Python `int` on a digit
string). -/
def natOfDigits (l : List Char) : Nat :=
  l.foldl (fun a c => 10 * a + (c.toNat - '0'.toNat)) 0

/-- Python `int(text)` on an arbitrary captured string: succeeds on a
non-empty all-digit string, raises `ValueError` otherwise. -/
def pyInt (l : List Char) : Except String Nat :=
  if l ≠ [] ∧ l.all pyDigit then .ok (natOfDigits l) else .error "ValueError"

/-! ## Shared data model

The video-platform API is an external collaborator; it is embedded as an
environment of (deterministic) functions.  `VideoDetails` folds in the
`.get(..., default)` accesses of the Python code: `snippet.title`,
`snippet.description` and `contentDetails.duration` with their string
defaults already applied. -/

/-- The `snippet` part of a fetched metadata record. -/
structure Snippet where
  title : String
  description : String
  deriving Repr, DecidableEq

/-- A fetched metadata record (`videos().list` item). -/
structure VideoDetails where
  snippet : Snippet
  duration : String
  deriving Repr, DecidableEq

/-- The external API: `get_video_details`, `get_video_comments` (already
capped at the small per-video limit) and `search_videos` (already capped
at `max_results` and, for step4, already restricted by the
`publishedAfter` cutoff). -/
structure Env where
  videoDetails : String → Option VideoDetails
  videoComments : String → List String
  search : String → List String

/-- A value stored in a Python result dict: a bool or a string.  Needed
because `youtube_shorts_filter.py` stores `str(ml_detection)` while
`step4_complete_system.py` stores the bool itself. -/
inductive PyVal where
  | pyBool (b : Bool) : PyVal
  | pyStr (s : String) : PyVal
  deriving Repr, DecidableEq

/-- Python `str` of a bool. -/
def boolRepr (b : Bool) : String :=
  if b then "True" else "False"

/-- `description[:200] + "..." if len(description) > 200 else description`
(identical in both files). -/
def truncDesc (d : String) : String :=
  if d.length > 200 then ⟨d.data.take 200⟩ ++ "..." else d

/-- `f"https://www.youtube.com/watch?v={video_id}"` (identical in both
files). -/
def watchUrl (video_id : String) : String :=
  "https://www.youtube.com/watch?v=" ++ video_id

/-- `all_text = f"{title} {description} {' '.join(comments)}"` (identical
in both files). -/
def assembleText (title description : String) (comments : List String) : String :=
  title ++ " " ++ description ++ " " ++ String.intercalate " " comments

/-- The text assembled by the pipeline for video `vid` whose fetched
details are `vd`. -/
def pipelineText (env : Env) (vid : String) (vd : VideoDetails) : String :=
  assembleText vd.snippet.title vd.snippet.description (env.videoComments vid)

/-- A feature vector produced by the external vectorizer (opaque numeric
content; `Rat` stands in for the floating-point entries). -/
def Vec : Type := List Rat

/-- The externally trained artifact: `vectorizer.transform` (on the
singleton list `[text]`), `model.predict` (already composed with the
`[0]` indexing, so a scalar label) and `model.predict_proba` (already
composed with the `[0]` indexing, so the probability row).  Each call
into the foreign objects may raise, hence `Except`. -/
structure MLArtifact where
  transform : String → Except String Vec
  predict : Vec → Except String Int
  predictProba : Vec → Except String (List Rat)

/-- Python `max(probabilities)`: raises on an empty list. -/
def pyMaxRat : List Rat → Except String Rat
  | [] => .error "ValueError: max() arg is an empty sequence"
  | x :: xs => .ok (xs.foldl max x)

/-! ## `step4_complete_system.py` -/

namespace Step4

/-- The pattern library of `_init_regex_patterns`, each rule paired with
its Python source text (the identifier under which a match is
reported). -/
def regex_patterns : List (String × Regex) := [
  ("iphone\\s*\\d+", .rcat [.lit "iphone", .starP pySpace, .plusP pyDigit]),
  ("galaxy\\s*s\\d+", .rcat [.lit "galaxy", .starP pySpace, .chr 's', .plusP pyDigit]),
  ("macbook\\s*(pro|air)?", .rcat [.lit "macbook", .starP pySpace, .opt (.alt (.lit "pro") (.lit "air"))]),
  ("airpods?\\s*(pro|max)?", .rcat [.lit "airpod", .opt (.chr 's'), .starP pySpace, .opt (.alt (.lit "pro") (.lit "max"))]),
  ("nike", .lit "nike"),
  ("adidas", .lit "adidas"),
  ("buy\\s+now", .rcat [.lit "buy", .plusP pySpace, .lit "now"]),
  ("shop\\s+here", .rcat [.lit "shop", .plusP pySpace, .lit "here"]),
  ("get\\s+yours?", .rcat [.lit "get", .plusP pySpace, .lit "your", .opt (.chr 's')]),
  ("order\\s+now", .rcat [.lit "order", .plusP pySpace, .lit "now"]),
  ("link\\s+in\\s+bio", .rcat [.lit "link", .plusP pySpace, .lit "in", .plusP pySpace, .lit "bio"]),
  ("swipe\\s+up", .rcat [.lit "swipe", .plusP pySpace, .lit "up"]),
  ("product\\s+review", .rcat [.lit "product", .plusP pySpace, .lit "review"]),
  ("unboxing", .lit "unboxing"),
  ("haul", .lit "haul"),
  ("first\\s+impressions?", .rcat [.lit "first", .plusP pySpace, .lit "impression", .opt (.chr 's')]),
  ("amazon\\.com", .lit "amazon.com"),
  ("amzn\\.to", .lit "amzn.to"),
  ("etsy\\.com", .lit "etsy.com"),
  ("shopify\\.com", .lit "shopify.com"),
  ("walmart\\.com", .lit "walmart.com"),
  ("target\\.com", .lit "target.com"),
  ("bestbuy\\.com", .lit "bestbuy.com"),
  ("(\\$|€|£)\\d+(\\.\\d{2})?", .rcat [.alt (.chr '$') (.alt (.chr '€') (.chr '£')),
    .plusP pyDigit, .opt (.rcat [.chr '.', .pred pyDigit, .pred pyDigit])]),
  ("discount", .lit "discount"),
  ("sale", .lit "sale"),
  ("deal", .lit "deal"),
  ("\\d+%\\s*off", .rcat [.plusP pyDigit, .chr '%', .starP pySpace, .lit "off"]),
  ("affiliate\\s+link", .rcat [.lit "affiliate", .plusP pySpace, .lit "link"]),
  ("sponsored", .lit "sponsored"),
  ("#ad", .lit "#ad"),
  ("promo\\s*code", .rcat [.lit "promo", .starP pySpace, .lit "code"])]

/-- `detect_products_regex`: lower-case the text, keep every library
rule whose pattern occurs somewhere in it, in library order. -/
def detect_products_regex (text : String) : List String :=
  (regex_patterns.filter (fun p => reSearch p.2 (pyLower text))).map (·.1)

/-- One optional group `(?:(\d+)M)?` (tag `'M'`) or `(?:(\d+)S)?` (tag
`'S'`) of the duration pattern: a greedy maximal digit run immediately
followed by the tag letter; on failure the group matches the empty
string and the position is unchanged. -/
def msGroup (tag : Char) (s : List Char) : Option Nat × List Char :=
  match s.dropWhile pyDigit with
  | c :: rest =>
    if s.takeWhile pyDigit ≠ [] && c == tag then
      (some (natOfDigits (s.takeWhile pyDigit)), rest)
    else (none, s)
  | [] => (none, s)

/-- The two captured components of
`re.match(r"PT(?:(\d+)M)?(?:(\d+)S)?", ...)` after the `PT` prefix,
with the `or 0` defaults applied. -/
def parseMS (rest : List Char) : Nat × Nat :=
  let (g1, r1) := msGroup 'M' rest
  let (g2, _) := msGroup 'S' r1
  (g1.getD 0, g2.getD 0)

/-- `is_short_video` of `step4_complete_system.py` (and, verbatim, of
`step1_basic_setup.py` and `tutorial_simple_version.py`): `re.match` is
anchored at the start only, so the match succeeds exactly on a `PT`
prefix; then `total_seconds = minutes*60 + seconds ≤ 60`. -/
def is_short_video (duration : String) : Bool :=
  match duration.data with
  | 'P' :: 'T' :: rest =>
    let (m, s) := parseMS rest
    decide (m * 60 + s ≤ 60)
  | _ => false

end Step4

/-! ## `youtube_shorts_filter.py`

The raw strings of this file contain doubled backslashes, so inside the
compiled patterns `\\` is an escaped literal backslash and the following
`d` / `s` / `.` / `$` are the ordinary metacharacters `d`-literal,
`s`-literal, any-char and end-anchor.  The ASTs below spell out those
actual semantics; e.g. the source pattern `buy\\s+now` is
backslash, one-or-more `'s'`, then `now`. -/

namespace YS

/-- A literal backslash (the regex token `\\`). -/
def bs : Regex := Regex.chr '\\'

/-- The pattern list of `detect_products_regex`, each rule paired with
its Python source text. -/
def patterns : List (String × Regex) := [
  ("iphone\\\\s*\\\\d+", .rcat [.lit "iphone", bs, .starC 's', bs, .plusC 'd']),
  ("galaxy\\\\s*s\\\\d+", .rcat [.lit "galaxy", bs, .starC 's', .chr 's', bs, .plusC 'd']),
  ("nike", .lit "nike"),
  ("adidas", .lit "adidas"),
  ("buy\\\\s+now", .rcat [.lit "buy", bs, .plusC 's', .lit "now"]),
  ("shop\\\\s+here", .rcat [.lit "shop", bs, .plusC 's', .lit "here"]),
  ("link\\\\s+in\\\\s+bio", .rcat [.lit "link", bs, .plusC 's', .lit "in", bs, .plusC 's', .lit "bio"]),
  ("product\\\\s+review", .rcat [.lit "product", bs, .plusC 's', .lit "review"]),
  ("unboxing", .lit "unboxing"),
  ("amazon\\\\.com", .rcat [.lit "amazon", bs, .pred pyDot, .lit "com"]),
  ("etsy\\\\.com", .rcat [.lit "etsy", bs, .pred pyDot, .lit "com"]),
  ("shopify\\\\.com", .rcat [.lit "shopify", bs, .pred pyDot, .lit "com"]),
  ("walmart\\\\.com", .rcat [.lit "walmart", bs, .pred pyDot, .lit "com"]),
  ("target\\\\.com", .rcat [.lit "target", bs, .pred pyDot, .lit "com"]),
  ("bestbuy\\\\.com", .rcat [.lit "bestbuy", bs, .pred pyDot, .lit "com"]),
  ("(\\\\$|€|£)\\\\d+(\\\\.\\\\d{2})?",
    .rcat [.alt (.seq bs .dollar) (.alt (.chr '€') (.chr '£')), bs, .plusC 'd',
      .opt (.rcat [bs, .pred pyDot, bs, .chr 'd', .chr 'd'])]),
  ("discount", .lit "discount"),
  ("sale", .lit "sale")]

/-- `detect_products_regex`: `re.search(pattern, text, re.IGNORECASE)`
over the library, collecting the matching rules in order.  The
`IGNORECASE` flag is realized by case-folding the subject string (every
pattern is lower case). -/
def detect_products_regex (text : String) : List String :=
  (patterns.filter (fun p => reSearch p.2 (pyLower text))).map (·.1)

/-- `detect_products_ml`: without a loaded artifact, `False`; otherwise
`vectorizer.transform`, `model.predict`, `prediction[0] == 1` — with no
exception handler, so a failing foreign call propagates (`Except`). -/
def detect_products_ml (art : Option MLArtifact) (text : String) : Except String Bool :=
  match art with
  | none => .ok false
  | some a => do
    let v ← a.transform text
    let p ← a.predict v
    pure (p == 1)

/-- One optional group `(?:(\\d+)M)?` of this file's duration pattern:
`\\d+` is a literal backslash followed by one-or-more literal `'d'`
characters, and the capture spans them all. -/
def msGroupBS (tag : Char) (s : List Char) : Option (List Char) × List Char :=
  match s with
  | '\\' :: r =>
    match r.dropWhile (· == 'd') with
    | c :: r2 =>
      if r.takeWhile (· == 'd') ≠ [] && c == tag then
        (some ('\\' :: r.takeWhile (· == 'd')), r2)
      else (none, s)
    | [] => (none, s)
  | _ => (none, s)

/-- `is_short_video` of `youtube_shorts_filter.py`:
`re.match(r"PT(?:(\\d+)M)?(?:(\\d+)S)?", duration)` — because of the
doubled backslashes the optional groups can only match
backslash-`d`-runs, and `int(group or 0)` raises `ValueError` on any
captured text (which always starts with a backslash). -/
def is_short_video (duration : String) : Except String Bool :=
  match duration.data with
  | 'P' :: 'T' :: rest =>
    let (g1, r1) := msGroupBS 'M' rest
    let (g2, _) := msGroupBS 'S' r1
    do
      let m ← match g1 with | none => pure 0 | some t => pyInt t
      let s ← match g2 with | none => pure 0 | some t => pyInt t
      pure (decide (m * 60 + s ≤ 60))
  | _ => .ok false

/-- One entry of the `filtered_shorts` list built by
`filter_shorts_with_products`. -/
structure Rec where
  video_id : String
  title : String
  description : String
  url : String
  regex_patterns : List String
  ml_detection : PyVal
  deriving Repr, DecidableEq

/-- `filter_shorts_with_products`: per id — fetch details (skip on
not-found), duration gate, assemble text, run both detectors, retain iff
`regex_products or ml_detection`; the record stores
`str(ml_detection)`.  Exceptions from `is_short_video` or
`detect_products_ml` propagate and abort the whole loop, as in the
source. -/
def filter_shorts_with_products (env : Env) (art : Option MLArtifact) :
    List String → Except String (List Rec)
  | [] => .ok []
  | vid :: rest =>
    match env.videoDetails vid with
    | none => filter_shorts_with_products env art rest
    | some vd =>
      match is_short_video vd.duration with
      | .error e => .error e
      | .ok isShort =>
        if !isShort then
          filter_shorts_with_products env art rest
        else
          let title := vd.snippet.title
          let description := vd.snippet.description
          let comments := env.videoComments vid
          let all_text := assembleText title description comments
          let regex_products := detect_products_regex all_text
          match detect_products_ml art all_text with
          | .error e => .error e
          | .ok ml =>
            match filter_shorts_with_products env art rest with
            | .error e => .error e
            | .ok tail =>
              if !regex_products.isEmpty || ml then
                .ok ({ video_id := vid, title := title,
                       description := truncDesc description,
                       url := watchUrl vid,
                       regex_patterns := regex_products,
                       ml_detection := .pyStr (boolRepr ml) } :: tail)
              else
                .ok tail

end YS

namespace Step4

/-- The body of the `try` block of `detect_products_ml`: transform,
predict, `predict_proba`, `confidence = max(probabilities)`, returning
`(bool(prediction), float(confidence))`. -/
def mlInfer (a : MLArtifact) (text : String) : Except String (Bool × Rat) := do
  let v ← a.transform text
  let p ← a.predict v
  let probs ← a.predictProba v
  let c ← pyMaxRat probs
  pure (p != 0, c)

/-- `detect_products_ml` of `step4_complete_system.py`: with no loaded
artifact `{"prediction": False, "confidence": 0.0}`; otherwise the
inference chain with `except Exception` collapsing any failure to the
same negative result. -/
def detect_products_ml (art : Option MLArtifact) (text : String) : Bool × Rat :=
  match art with
  | none => (false, 0)
  | some a =>
    match mlInfer a text with
    | .ok r => r
    | .error _ => (false, 0)

/-- One entry of the results list of the complete system (the
performance-timing fields, which depend on the wall clock, are not
modelled). -/
structure Result where
  video_id : String
  title : String
  description : String
  url : String
  has_product : Bool
  regex_patterns : List String
  ml_prediction : Bool
  ml_confidence : Rat
  comment_count : Nat
  deriving Repr, DecidableEq

/-- `analyze_video_content`: fetch details (skip on not-found), duration
gate, assemble text, run both detectors, and return the result record
with `has_product = len(regex_patterns) > 0 or ml_result["prediction"]`. -/
def analyze_video_content (env : Env) (art : Option MLArtifact) (video_id : String) :
    Option Result :=
  match env.videoDetails video_id with
  | none => none
  | some vd =>
    if !is_short_video vd.duration then none
    else
      let title := vd.snippet.title
      let description := vd.snippet.description
      let comments := env.videoComments video_id
      let all_text := assembleText title description comments
      let regex_patterns := detect_products_regex all_text
      let ml_result := detect_products_ml art all_text
      let has_product := decide (0 < regex_patterns.length) || ml_result.1
      some { video_id := video_id, title := title,
             description := truncDesc description,
             url := watchUrl video_id,
             has_product := has_product,
             regex_patterns := regex_patterns,
             ml_prediction := ml_result.1,
             ml_confidence := ml_result.2,
             comment_count := comments.length }

/-- `filter_shorts_batch`: analyze each id in order and keep the results
with `result["has_product"]`. -/
def filter_shorts_batch (env : Env) (art : Option MLArtifact) (ids : List String) :
    List Result :=
  (ids.filterMap (analyze_video_content env art)).filter (·.has_product)

/-- The query loop of `run_complete_filter`, threading the
`processed_video_ids` set (embedded as the list of its elements — only
membership is ever used) and returning `(all_results, seen)`. -/
def runGo (env : Env) (art : Option MLArtifact) :
    List String → List String → List Result × List String
  | [], seen => ([], seen)
  | q :: qs, seen =>
    let new_ids := (env.search q).filter (fun v => decide (v ∉ seen))
    if new_ids.isEmpty then
      runGo env art qs seen
    else
      let query_results := filter_shorts_batch env art new_ids
      let next := runGo env art qs (seen ++ new_ids)
      (query_results ++ next.1, next.2)

/-- `run_complete_filter`: process queries in order starting from an
empty seen-set and return the accumulated results. -/
def run_complete_filter (env : Env) (art : Option MLArtifact)
    (queries : List String) : List Result :=
  (runGo env art queries []).1

end Step4

/-! ## Concrete fixtures used by evaluations and witnesses -/

/-- The scenario text of the spec's pattern-detector test property. -/
def scenarioText : String :=
  "Unboxing the new iPhone 15! Link in bio to buy now."

/-- Details of a 30-second video whose title mentions a sale. -/
def vdOne : VideoDetails := ⟨⟨"sale", ""⟩, "PT30S"⟩

/-- An environment with a single 30-second video `"a"` whose title
mentions a sale, surfaced by every query. -/
def envOne : Env where
  videoDetails := fun v => if v = "a" then some ⟨⟨"sale", ""⟩, "PT30S"⟩ else none
  videoComments := fun _ => []
  search := fun _ => ["a"]

/-- An environment whose search result for any query lists the same
identifier `"a"` twice. -/
def envDup : Env where
  videoDetails := fun v => if v = "a" then some ⟨⟨"sale", ""⟩, "PT30S"⟩ else none
  videoComments := fun _ => []
  search := fun _ => ["a", "a"]

/-- An environment carrying the scenario text as the title of the
30-second video `"v"`. -/
def envScenario : Env where
  videoDetails := fun v => if v = "v" then some ⟨⟨scenarioText, ""⟩, "PT30S"⟩ else none
  videoComments := fun _ => []
  search := fun _ => ["v"]

/-- An artifact whose vectorizer call fails, as when the foreign
`transform` raises on malformed input. -/
def failingArtifact : MLArtifact where
  transform := fun _ => .error "vectorizer failure"
  predict := fun _ => .ok 1
  predictProba := fun _ => .ok []

/-- The single result record the step4 batch produces on `envOne`. -/
def rStep4One : Step4.Result := ⟨"a", "sale", "", watchUrl "a", true, ["sale"], false, 0, 0⟩

/-- The single result record `youtube_shorts_filter` produces on
`envOne`. -/
def recYSOne : YS.Rec := ⟨"a", "sale", "", watchUrl "a", ["sale"], .pyStr "False"⟩

/-! ## Helper lemmas -/

/-- When the optional duration group fails, the scan position is
unchanged. -/
lemma msGroup_of_fst_none (t : Char) (s : List Char)
    (h : (Step4.msGroup t s).1 = none) : Step4.msGroup t s = (none, s) := by
  unfold Step4.msGroup at h ⊢
  cases heq : List.dropWhile pyDigit s with
  | nil => simp only [heq]
  | cons c rest =>
    simp only [heq] at h ⊢
    by_cases hc : (decide (List.takeWhile pyDigit s ≠ []) && c == t) = true
    · rw [if_pos hc] at h
      simp at h
    · rw [if_neg hc]

/-- Splitting `truncDesc` into the two cases of the cap. -/
lemma truncDesc_spec (d : String) :
    (d.length ≤ 200 → truncDesc d = d) ∧
    (200 < d.length → truncDesc d = String.mk (d.data.take 200) ++ "...") := by
  unfold truncDesc
  constructor <;> intro h
  · simp [Nat.not_lt.mpr h]
  · simp [h]

/-- Unfolding `analyze_video_content` when the fetch succeeds and the
duration gate passes. -/
lemma analyze_eq_some (env : Env) (art : Option MLArtifact) (vid : String) (vd : VideoDetails)
    (h1 : env.videoDetails vid = some vd)
    (h2 : Step4.is_short_video vd.duration = true) :
    Step4.analyze_video_content env art vid = some {
      video_id := vid, title := vd.snippet.title,
      description := truncDesc vd.snippet.description,
      url := watchUrl vid,
      has_product := decide (0 < (Step4.detect_products_regex (pipelineText env vid vd)).length)
        || (Step4.detect_products_ml art (pipelineText env vid vd)).1,
      regex_patterns := Step4.detect_products_regex (pipelineText env vid vd),
      ml_prediction := (Step4.detect_products_ml art (pipelineText env vid vd)).1,
      ml_confidence := (Step4.detect_products_ml art (pipelineText env vid vd)).2,
      comment_count := (env.videoComments vid).length } := by
  unfold Step4.analyze_video_content pipelineText
  simp only [h1, h2]
  rfl

/-- A candidate that passes fetch and duration gate is retained exactly
when a pattern matched or the statistical label is positive. -/
lemma batch_singleton_iff (env : Env) (art : Option MLArtifact) (vid : String) (vd : VideoDetails)
    (h1 : env.videoDetails vid = some vd)
    (h2 : Step4.is_short_video vd.duration = true) :
    Step4.filter_shorts_batch env art [vid] ≠ [] ↔
      (Step4.detect_products_regex (pipelineText env vid vd) ≠ [] ∨
       (Step4.detect_products_ml art (pipelineText env vid vd)).1 = true) := by
  unfold Step4.filter_shorts_batch
  rw [show ([vid].filterMap (Step4.analyze_video_content env art)) =
      [Step4.analyze_video_content env art vid].filterMap id from by
    simp [List.filterMap]]
  rw [analyze_eq_some env art vid vd h1 h2]
  cases hb : (decide (0 < (Step4.detect_products_regex (pipelineText env vid vd)).length)
      || (Step4.detect_products_ml art (pipelineText env vid vd)).1) with
  | false =>
    obtain ⟨hA, hB⟩ : _ ∧ _ := by
      constructor
      · exact Bool.or_eq_false_iff.mp hb |>.1
      · exact Bool.or_eq_false_iff.mp hb |>.2
    have hnil : Step4.detect_products_regex (pipelineText env vid vd) = [] := by
      have hnot := of_decide_eq_false hA
      have : (Step4.detect_products_regex (pipelineText env vid vd)).length = 0 := by omega
      exact List.eq_nil_of_length_eq_zero this
    simp [List.filterMap, List.filter, hb, hnil, hB]
  | true =>
    simp only [List.filterMap, List.filter, hb]
    constructor
    · intro _
      rcases Bool.or_eq_true_iff.mp hb with hA | hB
      · exact Or.inl (List.ne_nil_of_length_pos (of_decide_eq_true hA))
      · exact Or.inr hB
    · intro _
      simp

/-- Unfolding `youtube_shorts_filter`'s per-video loop for a singleton
id list when the fetch, duration parse and classifier all succeed. -/
lemma ys_singleton (env : Env) (art : Option MLArtifact) (vid : String) (vd : VideoDetails)
    (m : Bool)
    (h1 : env.videoDetails vid = some vd)
    (h2 : YS.is_short_video vd.duration = .ok true)
    (h3 : YS.detect_products_ml art (pipelineText env vid vd) = .ok m) :
    YS.filter_shorts_with_products env art [vid] =
      .ok (if !(YS.detect_products_regex (pipelineText env vid vd)).isEmpty || m then
        [{ video_id := vid, title := vd.snippet.title,
           description := truncDesc vd.snippet.description,
           url := watchUrl vid,
           regex_patterns := YS.detect_products_regex (pipelineText env vid vd),
           ml_detection := .pyStr (boolRepr m) }]
      else []) := by
  unfold YS.filter_shorts_with_products pipelineText
  simp only [h1, h2]
  unfold pipelineText at h3
  simp only [h3]
  simp only [show YS.filter_shorts_with_products env art [] = Except.ok [] from rfl,
    Bool.not_true]
  rw [if_neg (by simp : ¬ false = true)]
  by_cases hc : (!(YS.detect_products_regex
      (assembleText vd.snippet.title vd.snippet.description (env.videoComments vid))).isEmpty || m) = true
  · rw [if_pos hc, if_pos hc]
  · rw [if_neg hc, if_neg hc]

/-! ## Claim theorems -/

/-- C1 — code bug in `youtube_shorts_filter.py`.  The claim's contract
("PT1M30S" is not short) holds of `step4_complete_system.is_short_video`
(and its verbatim copies in step1 and the tutorial); but
`youtube_shorts_filter.is_short_video`, whose own comment announces
"Parse ISO 8601 duration format (e.g., PT1M30S for 1 minute 30
seconds)", classifies "PT1M30S" as short: its doubled backslashes make
both capture groups unmatchable, so every `PT`-prefixed token parses as
zero seconds. -/
theorem claim_c1_duration_classifier :
    Step4.is_short_video "PT45S" = true ∧
    Step4.is_short_video "PT1M30S" = false ∧
    Step4.is_short_video "PT" = true ∧
    YS.is_short_video "PT1M30S" = .ok true :=
  ⟨by decide, by decide, by decide, rfl⟩

/-- C10 — the step4/step1 duration pattern is matched at the start only
and has no hour group: whenever the remainder after `PT` begins with
neither a digit-run-`M` nor a digit-run-`S` component (e.g. "1H",
"1H30M", "xyz"), both groups default to `0`, the total is `0`, and the
video is classified as short; no `PT`-prefixed token is ever rejected —
the result is always the `total_seconds ≤ 60` test of the parsed
components. -/
theorem claim_c10_pt_leniency :
    (∀ rest : List Char,
      (Step4.msGroup 'M' rest).1 = none → (Step4.msGroup 'S' rest).1 = none →
        Step4.parseMS rest = (0, 0) ∧ Step4.is_short_video ⟨'P' :: 'T' :: rest⟩ = true) ∧
    (∀ rest : List Char, Step4.is_short_video ⟨'P' :: 'T' :: rest⟩ =
      decide ((Step4.parseMS rest).1 * 60 + (Step4.parseMS rest).2 ≤ 60)) ∧
    Step4.is_short_video "PT1H" = true ∧
    Step4.is_short_video "PT1H30M" = true ∧
    Step4.is_short_video "PTxyz" = true := by
  refine ⟨?_, ?_, by decide, by decide, by decide⟩
  · intro rest h1 h2
    have e1 : Step4.msGroup 'M' rest = (none, rest) := msGroup_of_fst_none _ _ h1
    have hp : Step4.parseMS rest = (0, 0) := by
      unfold Step4.parseMS
      rw [e1]
      simp [msGroup_of_fst_none _ _ h2]
    refine ⟨hp, ?_⟩
    show Step4.is_short_video ⟨'P' :: 'T' :: rest⟩ = true
    unfold Step4.is_short_video
    simp [hp]
  · intro rest
    unfold Step4.is_short_video
    rcases hp : Step4.parseMS rest with ⟨m, s⟩
    simp [hp]

/-- Witness for C10 at the concrete remainder `"xyz"`. -/
theorem claim_c10_witness :
    (Step4.msGroup 'M' "xyz".data).1 = none ∧
    (Step4.msGroup 'S' "xyz".data).1 = none ∧
    (Step4.parseMS "xyz".data = (0, 0) ∧
      Step4.is_short_video ⟨'P' :: 'T' :: "xyz".data⟩ = true) :=
  ⟨by decide, by decide,
    claim_c10_pt_leniency.1 "xyz".data (by decide) (by decide)⟩

/-- C7 — the step4 Pattern Detector is a pure function whose output is
the filtered pattern library: it is deterministic (the same term on both
runs), its output is a sublist of the library's identifier list (hence
in library order), and it never repeats an identifier. -/
theorem claim_c7_detector_deterministic_ordered (text : String) :
    Step4.detect_products_regex text = Step4.detect_products_regex text ∧
    (Step4.detect_products_regex text).Sublist (Step4.regex_patterns.map (·.1)) ∧
    (Step4.detect_products_regex text).Nodup := by
  unfold Step4.detect_products_regex
  refine ⟨rfl, ?_, ?_⟩
  · exact (List.filter_sublist _).map _
  · exact ((List.filter_sublist _).map _).nodup (by decide)

/-- C8 — code bug in `youtube_shorts_filter.py`.  On the scenario text
the step4 detector reports exactly the four claimed rules (brand,
buy-now, link-in-bio, unboxing) and retains the candidate; the
`youtube_shorts_filter` detector reports only `unboxing` — its brand,
buy-now and link-in-bio patterns demand literal backslashes because of
the doubled escapes — though the candidate is still retained. -/
theorem claim_c8_scenario :
    Step4.detect_products_regex scenarioText =
      ["iphone\\s*\\d+", "buy\\s+now", "link\\s+in\\s+bio", "unboxing"] ∧
    (Step4.filter_shorts_batch envScenario none ["v"]).length = 1 ∧
    YS.detect_products_regex scenarioText = ["unboxing"] ∧
    Except.map List.length (YS.filter_shorts_with_products envScenario none ["v"]) =
      .ok 1 :=
  ⟨by decide, by decide, by decide, rfl⟩

/-- C5 — counterexample: in `youtube_shorts_filter.detect_products_ml`
there is no exception handler, so a failure of the foreign vectorizer
propagates out of the classifier instead of being converted to a
negative result. -/
theorem claim_c5_counterexample :
    YS.detect_products_ml (some failingArtifact) "Unboxing video" =
      .error "vectorizer failure" := rfl

/-- C5 — amended: in `step4_complete_system.detect_products_ml` any
failure of the inference chain is caught and collapsed to the negative
result with zero confidence. -/
theorem claim_c5_amended_catch (a : MLArtifact) (text e : String)
    (h : Step4.mlInfer a text = .error e) :
    Step4.detect_products_ml (some a) text = (false, 0) := by
  have e : Step4.detect_products_ml (some a) text =
      match Step4.mlInfer a text with
      | .ok r => r
      | .error _ => (false, 0) := rfl
  rw [e, h]

/-- Witness for the amended C5 at the concrete failing artifact. -/
theorem claim_c5_witness :
    Step4.mlInfer failingArtifact "Unboxing video" = .error "vectorizer failure" ∧
    Step4.detect_products_ml (some failingArtifact) "Unboxing video" = (false, 0) :=
  ⟨rfl, claim_c5_amended_catch failingArtifact "Unboxing video" "vectorizer failure" rfl⟩

/-- C2 — a candidate that passes the metadata fetch and the duration
gate is retained iff the pattern-match list is non-empty OR the
statistical label is positive; each detector alone forces retention.
Stated for the step4 batch filter and, under success of the fallible
steps, for `youtube_shorts_filter`'s loop. -/
theorem claim_c2_retention_iff (env : Env) (art : Option MLArtifact)
    (vid : String) (vd : VideoDetails)
    (h1 : env.videoDetails vid = some vd)
    (h2 : Step4.is_short_video vd.duration = true) :
    (Step4.filter_shorts_batch env art [vid] ≠ [] ↔
      (Step4.detect_products_regex (pipelineText env vid vd) ≠ [] ∨
       (Step4.detect_products_ml art (pipelineText env vid vd)).1 = true)) ∧
    (Step4.detect_products_regex (pipelineText env vid vd) ≠ [] →
      Step4.filter_shorts_batch env art [vid] ≠ []) ∧
    ((Step4.detect_products_ml art (pipelineText env vid vd)).1 = true →
      Step4.filter_shorts_batch env art [vid] ≠ []) ∧
    (∀ m : Bool, YS.is_short_video vd.duration = .ok true →
      YS.detect_products_ml art (pipelineText env vid vd) = .ok m →
      ∃ l, YS.filter_shorts_with_products env art [vid] = .ok l ∧
        (l ≠ [] ↔ (YS.detect_products_regex (pipelineText env vid vd) ≠ [] ∨ m = true))) := by
  have hiff := batch_singleton_iff env art vid vd h1 h2
  refine ⟨hiff, fun h => hiff.mpr (.inl h), fun h => hiff.mpr (.inr h), ?_⟩
  intro m hys hml
  refine ⟨_, ys_singleton env art vid vd m h1 hys hml, ?_⟩
  by_cases hc : (!(YS.detect_products_regex (pipelineText env vid vd)).isEmpty || m) = true
  · rw [if_pos hc]
    simp only [ne_eq, List.cons_ne_nil, not_false_iff, true_iff]
    rcases Bool.or_eq_true_iff.mp hc with hA | hB
    · left
      intro hnil
      rw [hnil] at hA
      simp at hA
    · exact Or.inr hB
  · rw [if_neg hc]
    have hcf : (!(YS.detect_products_regex (pipelineText env vid vd)).isEmpty || m) = false := by
      revert hc
      cases (!(YS.detect_products_regex (pipelineText env vid vd)).isEmpty || m) <;> simp
    obtain ⟨hA, hB⟩ := Bool.or_eq_false_iff.mp hcf
    have hAnil : YS.detect_products_regex (pipelineText env vid vd) = [] := by
      revert hA
      cases hl : YS.detect_products_regex (pipelineText env vid vd) <;> simp [hl]
    simp [hAnil, hB]

/-- Witness for C2 at the concrete environment `envOne`. -/
theorem claim_c2_witness :
    envOne.videoDetails "a" = some vdOne ∧
    Step4.is_short_video vdOne.duration = true ∧
    ((Step4.filter_shorts_batch envOne none ["a"] ≠ [] ↔
      (Step4.detect_products_regex (pipelineText envOne "a" vdOne) ≠ [] ∨
       (Step4.detect_products_ml none (pipelineText envOne "a" vdOne)).1 = true)) ∧
    (Step4.detect_products_regex (pipelineText envOne "a" vdOne) ≠ [] →
      Step4.filter_shorts_batch envOne none ["a"] ≠ []) ∧
    ((Step4.detect_products_ml none (pipelineText envOne "a" vdOne)).1 = true →
      Step4.filter_shorts_batch envOne none ["a"] ≠ []) ∧
    (∀ m : Bool, YS.is_short_video vdOne.duration = .ok true →
      YS.detect_products_ml none (pipelineText envOne "a" vdOne) = .ok m →
      ∃ l, YS.filter_shorts_with_products envOne none ["a"] = .ok l ∧
        (l ≠ [] ↔ (YS.detect_products_regex (pipelineText envOne "a" vdOne) ≠ [] ∨ m = true)))) :=
  ⟨rfl, by decide, claim_c2_retention_iff envOne none "a" vdOne rfl (by decide)⟩

/-- C4 — with no loaded artifact both statistical classifiers return a
negative result for every text without raising, and retention of a
gated candidate reduces exactly to non-emptiness of the pattern-match
list. -/
theorem claim_c4_missing_artifact :
    (∀ text, Step4.detect_products_ml none text = (false, 0)) ∧
    (∀ text, YS.detect_products_ml none text = .ok false) ∧
    (∀ (env : Env) (vid : String) (vd : VideoDetails),
      env.videoDetails vid = some vd →
      Step4.is_short_video vd.duration = true →
      (Step4.filter_shorts_batch env none [vid] ≠ [] ↔
        Step4.detect_products_regex (pipelineText env vid vd) ≠ [])) := by
  refine ⟨fun _ => rfl, fun _ => rfl, ?_⟩
  intro env vid vd h1 h2
  have hiff := batch_singleton_iff env none vid vd h1 h2
  rw [show (Step4.detect_products_ml none (pipelineText env vid vd)).1 = false from rfl] at hiff
  simpa using hiff

/-- Witness for C4 at the concrete environment `envOne`. -/
theorem claim_c4_witness :
    envOne.videoDetails "a" = some vdOne ∧
    Step4.is_short_video vdOne.duration = true ∧
    (Step4.filter_shorts_batch envOne none ["a"] ≠ [] ↔
      Step4.detect_products_regex (pipelineText envOne "a" vdOne) ≠ []) :=
  ⟨rfl, by decide, claim_c4_missing_artifact.2.2 envOne "a" vdOne rfl (by decide)⟩

/-- A result produced by `analyze_video_content` carries the id it was
produced for. -/
lemma analyze_video_id (env : Env) (art : Option MLArtifact) (v : String) (r : Step4.Result)
    (h : Step4.analyze_video_content env art v = some r) : r.video_id = v := by
  unfold Step4.analyze_video_content at h
  cases hd : env.videoDetails v with
  | none =>
    simp only [hd] at h
    exact absurd h (by simp)
  | some vd =>
    simp only [hd] at h
    by_cases hs : (!Step4.is_short_video vd.duration) = true
    · rw [if_pos hs] at h
      exact absurd h (by simp)
    · rw [if_neg hs] at h
      cases h
      rfl

/-- The ids of a batch's results form a sublist of the processed id
list: at most one result per processed id, in order. -/
lemma batch_ids_sublist (env : Env) (art : Option MLArtifact) (ids : List String) :
    ((Step4.filter_shorts_batch env art ids).map (·.video_id)).Sublist ids := by
  induction ids with
  | nil => simp [Step4.filter_shorts_batch]
  | cons v rest ih =>
    unfold Step4.filter_shorts_batch at ih ⊢
    rw [List.filterMap_cons]
    cases h : Step4.analyze_video_content env art v with
    | none => exact ih.cons v
    | some r =>
      have hv := analyze_video_id env art v r h
      rw [List.filter_cons]
      by_cases hp : r.has_product = true
      · simp only [hp, if_pos]
        rw [List.map_cons, hv]
        exact ih.cons₂ v
      · rw [if_neg (by simp [hp])]
        exact ih.cons v

/-- Invariant of the step4 query loop: when every per-term search result
is duplicate-free, the emitted results carry pairwise distinct ids, none
of which was already in the seen-set. -/
lemma runGo_nodup (env : Env) (art : Option MLArtifact)
    (hs : ∀ q, (env.search q).Nodup) :
    ∀ (qs : List String) (seen : List String),
      ((Step4.runGo env art qs seen).1.map (·.video_id)).Nodup ∧
      ∀ v ∈ (Step4.runGo env art qs seen).1.map (·.video_id), v ∉ seen := by
  intro qs
  induction qs with
  | nil => intro seen; simp [Step4.runGo]
  | cons q qs ih =>
    intro seen
    unfold Step4.runGo
    by_cases he : ((env.search q).filter (fun v => decide (v ∉ seen))).isEmpty = true
    · simp only [he, if_pos]
      exact ih seen
    · rw [if_neg he]
      obtain ⟨ihn, ihm⟩ := ih (seen ++ (env.search q).filter (fun v => decide (v ∉ seen)))
      have hqsub := batch_ids_sublist env art
        ((env.search q).filter (fun v => decide (v ∉ seen)))
      have hnewnd : ((env.search q).filter (fun v => decide (v ∉ seen))).Nodup :=
        (hs q).filter _
      constructor
      · rw [List.map_append]
        rw [List.nodup_append]
        refine ⟨hqsub.nodup hnewnd, ihn, ?_⟩
        intro v hv1 hv2
        have hvnew : v ∈ (env.search q).filter (fun v => decide (v ∉ seen)) :=
          hqsub.subset hv1
        exact ihm v hv2 (List.mem_append.mpr (Or.inr hvnew))
      · intro v hv
        rw [List.map_append, List.mem_append] at hv
        rcases hv with h | h
        · have hvnew : v ∈ (env.search q).filter (fun v => decide (v ∉ seen)) :=
            hqsub.subset h
          have hdec := (List.mem_filter.mp hvnew).2
          simpa using hdec
        · intro hvs
          exact ihm v h (List.mem_append.mpr (Or.inl hvs))

/-- A term all of whose search results are already seen is skipped
entirely: no results, no seen-set growth. -/
lemma runGo_skip (env : Env) (art : Option MLArtifact) (q : String) (qs seen : List String)
    (h : ∀ v ∈ env.search q, v ∈ seen) :
    Step4.runGo env art (q :: qs) seen = Step4.runGo env art qs seen := by
  have hnil : (env.search q).filter (fun v => decide (v ∉ seen)) = [] := by
    rw [List.filter_eq_nil_iff]
    intro a ha
    simpa using h a ha
  conv_lhs => unfold Step4.runGo
  rw [hnil]
  rfl

/-- A later occurrence of a term whose search results are all seen can
be deleted from the query list without changing anything. -/
lemma runGo_elim (env : Env) (art : Option MLArtifact) (q : String) (l₃ : List String) :
    ∀ (l₂ seen : List String), (∀ v ∈ env.search q, v ∈ seen) →
      Step4.runGo env art (l₂ ++ q :: l₃) seen = Step4.runGo env art (l₂ ++ l₃) seen := by
  intro l₂
  induction l₂ with
  | nil =>
    intro seen h
    simpa using runGo_skip env art q l₃ seen h
  | cons t l₂ ih =>
    intro seen h
    simp only [List.cons_append]
    unfold Step4.runGo
    by_cases he : ((env.search t).filter (fun v => decide (v ∉ seen))).isEmpty = true
    · rw [if_pos he, if_pos he]
      exact ih seen h
    · rw [if_neg he, if_neg he]
      have h' : ∀ v ∈ env.search q,
          v ∈ seen ++ (env.search t).filter (fun v => decide (v ∉ seen)) :=
        fun v hv => List.mem_append.mpr (Or.inl (h v hv))
      rw [ih _ h']

/-- Deleting the second occurrence of a query term never changes the
run: after the first occurrence, every identifier that term surfaces is
in the seen-set. -/
lemma runGo_dup (env : Env) (art : Option MLArtifact) (q : String) (l₂ l₃ : List String) :
    ∀ (l₁ seen : List String),
      Step4.runGo env art (l₁ ++ q :: (l₂ ++ q :: l₃)) seen =
      Step4.runGo env art (l₁ ++ q :: (l₂ ++ l₃)) seen := by
  intro l₁
  induction l₁ with
  | nil =>
    intro seen
    simp only [List.nil_append]
    unfold Step4.runGo
    by_cases he : ((env.search q).filter (fun v => decide (v ∉ seen))).isEmpty = true
    · rw [if_pos he, if_pos he]
      have h : ∀ v ∈ env.search q, v ∈ seen := by
        intro v hv
        by_contra hns
        have hmem : v ∈ (env.search q).filter (fun v => decide (v ∉ seen)) :=
          List.mem_filter.mpr ⟨hv, by simpa using hns⟩
        rw [List.isEmpty_iff.mp he] at hmem
        simp at hmem
      exact runGo_elim env art q l₃ l₂ seen h
    · rw [if_neg he, if_neg he]
      have h : ∀ v ∈ env.search q,
          v ∈ seen ++ (env.search q).filter (fun v => decide (v ∉ seen)) := by
        intro v hv
        by_cases hvs : v ∈ seen
        · exact List.mem_append.mpr (Or.inl hvs)
        · exact List.mem_append.mpr (Or.inr (List.mem_filter.mpr ⟨hv, by simpa using hvs⟩))
      rw [runGo_elim env art q l₃ l₂ _ h]
  | cons t l₁ ih =>
    intro seen
    simp only [List.cons_append]
    unfold Step4.runGo
    by_cases he : ((env.search t).filter (fun v => decide (v ∉ seen))).isEmpty = true
    · rw [if_pos he, if_pos he]
      exact ih seen
    · rw [if_neg he, if_neg he]
      rw [ih _]

/-- C3 — counterexample: when a single term's fetched identifier list
contains the same identifier twice (here `envDup.search` returns
`["a", "a"]`), the orchestrator emits two Detection Results for it — the
seen-set only guards against reprocessing across terms, not against
duplicates inside one term's list. -/
theorem claim_c3_counterexample :
    (Step4.run_complete_filter envDup none ["q"]).map (·.video_id) = ["a", "a"] ∧
    ¬ ((Step4.run_complete_filter envDup none ["q"]).map (·.video_id)).Nodup :=
  ⟨by decide, by decide⟩

/-- C3 — amended: provided each term's fetched identifier list is
duplicate-free, every run emits at most one Detection Result per
identifier (pairwise distinct ids), because an identifier surfaced by an
earlier term is filtered out of every later term's new-identifier
list. -/
theorem claim_c3_amended_nodup (env : Env) (art : Option MLArtifact) (queries : List String)
    (hs : ∀ q, (env.search q).Nodup) :
    ((Step4.run_complete_filter env art queries).map (·.video_id)).Nodup :=
  (runGo_nodup env art hs queries []).1

/-- Witness for the amended C3 at the concrete environment `envOne`. -/
theorem claim_c3_witness :
    (∀ q, (envOne.search q).Nodup) ∧
    ((Step4.run_complete_filter envOne none ["w"]).map (·.video_id)).Nodup :=
  ⟨fun _ => List.nodup_singleton "a",
   claim_c3_amended_nodup envOne none ["w"] (fun _ => List.nodup_singleton "a")⟩

/-- C6 — running the orchestrator with a query list containing the same
term twice yields exactly the same final result list as with the term
listed once: the second occurrence contributes zero new identifiers and
is skipped. -/
theorem claim_c6_duplicate_term (env : Env) (art : Option MLArtifact)
    (l₁ l₂ l₃ : List String) (q : String) :
    Step4.run_complete_filter env art (l₁ ++ q :: (l₂ ++ q :: l₃)) =
    Step4.run_complete_filter env art (l₁ ++ q :: (l₂ ++ l₃)) := by
  unfold Step4.run_complete_filter
  rw [runGo_dup]

/-- Provenance of a step4 batch result: its fields are exactly the
fetched metadata's title, the truncated description, the canonical watch
URL, the detector outputs and the classifier label/confidence. -/
lemma mem_batch_provenance (env : Env) (art : Option MLArtifact) (ids : List String)
    (r : Step4.Result) (h : r ∈ Step4.filter_shorts_batch env art ids) :
    ∃ vd, env.videoDetails r.video_id = some vd ∧
      r.title = vd.snippet.title ∧
      r.description = truncDesc vd.snippet.description ∧
      r.url = watchUrl r.video_id ∧
      r.regex_patterns = Step4.detect_products_regex (pipelineText env r.video_id vd) ∧
      r.ml_prediction = (Step4.detect_products_ml art (pipelineText env r.video_id vd)).1 ∧
      r.ml_confidence = (Step4.detect_products_ml art (pipelineText env r.video_id vd)).2 := by
  unfold Step4.filter_shorts_batch at h
  have hmem := (List.mem_filter.mp h).1
  obtain ⟨v, hvmem, ha⟩ := List.mem_filterMap.mp hmem
  unfold Step4.analyze_video_content at ha
  cases hd : env.videoDetails v with
  | none =>
    simp only [hd] at ha
    exact absurd ha (by simp)
  | some vd =>
    simp only [hd] at ha
    by_cases hs : (!Step4.is_short_video vd.duration) = true
    · rw [if_pos hs] at ha
      exact absurd ha (by simp)
    · rw [if_neg hs] at ha
      cases ha
      exact ⟨vd, hd, rfl, rfl, rfl, rfl, rfl, rfl⟩

/-- Provenance of a `youtube_shorts_filter` record: truncated
description, canonical URL, and a statistical field that is the *string
rendering* of the classifier's boolean. -/
lemma ys_mem_provenance (env : Env) (art : Option MLArtifact) :
    ∀ (ids : List String) (l : List YS.Rec),
      YS.filter_shorts_with_products env art ids = .ok l →
      ∀ r ∈ l, ∃ vd, env.videoDetails r.video_id = some vd ∧
        r.title = vd.snippet.title ∧
        r.description = truncDesc vd.snippet.description ∧
        r.url = watchUrl r.video_id ∧
        ∃ b, r.ml_detection = PyVal.pyStr (boolRepr b) := by
  intro ids
  induction ids with
  | nil =>
    intro l h r hr
    unfold YS.filter_shorts_with_products at h
    cases h
    exact absurd hr (by simp)
  | cons vid rest ih =>
    intro l h r hr
    unfold YS.filter_shorts_with_products at h
    cases hd : env.videoDetails vid with
    | none =>
      simp only [hd] at h
      exact ih l h r hr
    | some vd =>
      simp only [hd] at h
      cases hshort : YS.is_short_video vd.duration with
      | error e =>
        simp only [hshort] at h
        exact absurd h (by simp)
      | ok b =>
        simp only [hshort] at h
        by_cases hb : (!b) = true
        · rw [if_pos hb] at h
          exact ih l h r hr
        · rw [if_neg hb] at h
          cases hml : YS.detect_products_ml art
            (assembleText vd.snippet.title vd.snippet.description (env.videoComments vid)) with
          | error e =>
            simp only [hml] at h
            exact absurd h (by simp)
          | ok m =>
            simp only [hml] at h
            cases htail : YS.filter_shorts_with_products env art rest with
            | error e =>
              simp only [htail] at h
              exact absurd h (by simp)
            | ok tl =>
              simp only [htail] at h
              by_cases hc : (!(YS.detect_products_regex
                  (assembleText vd.snippet.title vd.snippet.description
                    (env.videoComments vid))).isEmpty || m) = true
              · rw [if_pos hc] at h
                injection h with h2
                subst h2
                rcases List.mem_cons.mp hr with hr | hr
                · subst hr
                  exact ⟨vd, hd, rfl, rfl, rfl, m, rfl⟩
                · exact ih tl htail r hr
              · rw [if_neg hc] at h
                injection h with h2
                subst h2
                exact ih tl htail r hr

/-- C9 — counterexample: the claim says the output record's
statistical-classifier field is a boolean label, but
`youtube_shorts_filter` stores `str(ml_detection)` — on the concrete run
over `envOne` the field is the *string* `"False"`, which is not a
boolean value. -/
theorem claim_c9_counterexample :
    Except.map (fun l => l.map (·.ml_detection))
      (YS.filter_shorts_with_products envOne none ["a"]) = .ok [PyVal.pyStr "False"] ∧
    (∀ b : Bool, PyVal.pyStr "False" ≠ PyVal.pyBool b) :=
  ⟨rfl, by decide⟩

/-- C9 — amended: every emitted Detection Result carries the source
title, the description capped at 200 characters with `"..."` appended
exactly when longer, and the canonical watch URL of its identifier; in
step4 the statistical field is the classifier's boolean label together
with its confidence, while in `youtube_shorts_filter` it is the string
rendering of that boolean. -/
theorem claim_c9_amended_shape :
    (∀ (env : Env) (art : Option MLArtifact) (ids : List String) (r : Step4.Result),
      r ∈ Step4.filter_shorts_batch env art ids →
      ∃ vd, env.videoDetails r.video_id = some vd ∧
        r.title = vd.snippet.title ∧
        (vd.snippet.description.length ≤ 200 → r.description = vd.snippet.description) ∧
        (200 < vd.snippet.description.length →
          r.description = String.mk (vd.snippet.description.data.take 200) ++ "...") ∧
        r.url = watchUrl r.video_id ∧
        r.regex_patterns = Step4.detect_products_regex (pipelineText env r.video_id vd) ∧
        r.ml_prediction = (Step4.detect_products_ml art (pipelineText env r.video_id vd)).1 ∧
        r.ml_confidence = (Step4.detect_products_ml art (pipelineText env r.video_id vd)).2) ∧
    (∀ (env : Env) (art : Option MLArtifact) (ids : List String) (l : List YS.Rec),
      YS.filter_shorts_with_products env art ids = .ok l →
      ∀ r ∈ l, ∃ vd, env.videoDetails r.video_id = some vd ∧
        r.title = vd.snippet.title ∧
        r.description = truncDesc vd.snippet.description ∧
        r.url = watchUrl r.video_id ∧
        ∃ b, r.ml_detection = PyVal.pyStr (boolRepr b)) := by
  constructor
  · intro env art ids r h
    obtain ⟨vd, hd, ht, hdesc, hurl, hrp, hmlp, hmlc⟩ := mem_batch_provenance env art ids r h
    refine ⟨vd, hd, ht, ?_, ?_, hurl, hrp, hmlp, hmlc⟩
    · intro hl
      rw [hdesc]
      exact (truncDesc_spec _).1 hl
    · intro hl
      rw [hdesc]
      exact (truncDesc_spec _).2 hl
  · intro env art
    exact ys_mem_provenance env art

/-- Witness for the amended C9 at the concrete environment `envOne`. -/
theorem claim_c9_witness :
    (rStep4One ∈ Step4.filter_shorts_batch envOne none ["a"] ∧
     ∃ vd, envOne.videoDetails rStep4One.video_id = some vd ∧
       rStep4One.title = vd.snippet.title ∧
       (vd.snippet.description.length ≤ 200 → rStep4One.description = vd.snippet.description) ∧
       (200 < vd.snippet.description.length →
         rStep4One.description = String.mk (vd.snippet.description.data.take 200) ++ "...") ∧
       rStep4One.url = watchUrl rStep4One.video_id ∧
       rStep4One.regex_patterns =
         Step4.detect_products_regex (pipelineText envOne rStep4One.video_id vd) ∧
       rStep4One.ml_prediction =
         (Step4.detect_products_ml none (pipelineText envOne rStep4One.video_id vd)).1 ∧
       rStep4One.ml_confidence =
         (Step4.detect_products_ml none (pipelineText envOne rStep4One.video_id vd)).2) ∧
    (YS.filter_shorts_with_products envOne none ["a"] = .ok [recYSOne] ∧
     ∀ r ∈ [recYSOne], ∃ vd, envOne.videoDetails r.video_id = some vd ∧
       r.title = vd.snippet.title ∧
       r.description = truncDesc vd.snippet.description ∧
       r.url = watchUrl r.video_id ∧
       ∃ b, r.ml_detection = PyVal.pyStr (boolRepr b)) :=
  ⟨⟨by decide, claim_c9_amended_shape.1 envOne none ["a"] rStep4One (by decide)⟩,
   ⟨rfl, claim_c9_amended_shape.2 envOne none ["a"] [recYSOne] rfl⟩⟩
